import Mathlib

/-!
Verification of the tadm-plot repository: a shallow embedding of its data
model and operations (binary int16 sample decoding, hex transport of the
mdb-export backend, step-type classification, platform driver selection,
backend auto-selection, tolerance-band import and merge, liquid-class
filtering, and the two-panel plot pipeline), together with theorems
settling the specification's claims about them.
-/

set_option maxRecDepth 4096

/-- A byte, as stored in the binary blob columns (CurvePoints,
LowerToleranceBand, UpperToleranceBand). -/
abbrev Byte := Fin 256

/-- Decode one signed 16-bit little-endian integer from its low and high
bytes, as np.frombuffer(-, np.int16) does per element. -/
def decodeI16 (lo hi : Byte) : Int :=
  let u := lo.val + 256 * hi.val
  if u < 32768 then (u : Int) else (u : Int) - 65536

/-- Re-encode one signed 16-bit integer as two little-endian bytes.  This is
the inverse direction used by the specification's round-trip property; the
repository itself only decodes. -/
def encodeI16 (v : Int) : List Byte :=
  let u := (v % 65536).toNat
  [⟨u % 256, Nat.mod_lt _ (by omega)⟩,
   ⟨u / 256, by
      have h1 : 0 ≤ v % 65536 := Int.emod_nonneg v (by omega)
      have h2 : v % 65536 < 65536 := Int.emod_lt_of_pos v (by omega)
      omega⟩]

/-- The binary-sample decoder: np.frombuffer(byte_string, np.int16) as used
by bin_to_int (tadm_polars/mdbtools.py, tadm_polars/pyodbc.py) and by the
TADM / tolerance-band column decodes (tadm.py, tadm/pyodbc.py,
tadm/mdbtools.py).  numpy raises a ValueError when the buffer length is not
a multiple of the element size 2; this failure is modelled as none. -/
def bin_to_int : List Byte → Option (List Int)
  | [] => some []
  | [_] => none
  | lo :: hi :: rest => (bin_to_int rest).map (fun vs => decodeI16 lo hi :: vs)

/-- Re-encode a sequence of signed 16-bit integers as little-endian bytes
(the specification's round-trip partner of bin_to_int). -/
def int_to_bin (vs : List Int) : List Byte :=
  vs.flatMap encodeI16

/-- Lower-case hex digit for a nibble, as bytes.hex / mdb-export -b hex
emit. -/
def nibbleChar (n : Fin 16) : Char :=
  if n.val = 0 then '0' else if n.val = 1 then '1'
  else if n.val = 2 then '2' else if n.val = 3 then '3'
  else if n.val = 4 then '4' else if n.val = 5 then '5'
  else if n.val = 6 then '6' else if n.val = 7 then '7'
  else if n.val = 8 then '8' else if n.val = 9 then '9'
  else if n.val = 10 then 'a' else if n.val = 11 then 'b'
  else if n.val = 12 then 'c' else if n.val = 13 then 'd'
  else if n.val = 14 then 'e' else 'f'

/-- Hex digit value of a character, both cases, as bytes.fromhex and
polars str.decode accept; any other character is a parse failure. -/
def charNibble (c : Char) : Option (Fin 16) :=
  if c = '0' then some 0 else if c = '1' then some 1
  else if c = '2' then some 2 else if c = '3' then some 3
  else if c = '4' then some 4 else if c = '5' then some 5
  else if c = '6' then some 6 else if c = '7' then some 7
  else if c = '8' then some 8 else if c = '9' then some 9
  else if c = 'a' ∨ c = 'A' then some 10
  else if c = 'b' ∨ c = 'B' then some 11
  else if c = 'c' ∨ c = 'C' then some 12
  else if c = 'd' ∨ c = 'D' then some 13
  else if c = 'e' ∨ c = 'E' then some 14
  else if c = 'f' ∨ c = 'F' then some 15
  else none

/-- High nibble of a byte. -/
def hiNibble (b : Byte) : Fin 16 :=
  ⟨b.val / 16, by have := b.isLt; omega⟩

/-- Low nibble of a byte. -/
def loNibble (b : Byte) : Fin 16 :=
  ⟨b.val % 16, Nat.mod_lt _ (by omega)⟩

/-- Byte from two nibbles. -/
def mkByte (n1 n2 : Fin 16) : Byte :=
  ⟨16 * n1.val + n2.val, by have := n1.isLt; have := n2.isLt; omega⟩

/-- Hex text of a binary blob, as mdb-export -b hex writes it to the CSV
stream (two hex characters per byte, high nibble first). -/
def bytesToHex (bs : List Byte) : List Char :=
  bs.flatMap (fun b => [nibbleChar (hiNibble b), nibbleChar (loNibble b)])

/-- Parse hex text back into bytes, as the bytes.fromhex converter
(tadm/mdbtools.py) and str.decode hex (tadm_polars/mdbtools.py) do;
odd length or a non-hex character is a parse failure. -/
def hexToBytes : List Char → Option (List Byte)
  | [] => some []
  | [_] => none
  | c1 :: c2 :: rest => do
      let n1 ← charNibble c1
      let n2 ← charNibble c2
      let bs ← hexToBytes rest
      pure (mkByte n1 n2 :: bs)

/-- The step-type enumeration of tadm/plotter.py, tadm_polars/plotter.py
and tadm.py (IntEnum StepType). -/
inductive StepType where
  | Aspirate
  | Dispense
  | Unknown
deriving DecidableEq

/-- Integer code of a StepType member (the IntEnum values). -/
def StepType.code : StepType → Int
  | .Aspirate => -533331728
  | .Dispense => -533331727
  | .Unknown => 0

/-- StepType.from_int exactly as written in tadm/plotter.py,
tadm_polars/plotter.py and tadm.py: note that the second branch returns
Aspirate, not Dispense. -/
def StepType.from_int (integer : Int) : StepType :=
  if integer = -533331728 then StepType.Aspirate
  else if integer = -533331727 then StepType.Aspirate
  else StepType.Unknown

namespace Tadm

/-- get_driver of tadm/pyodbc.py (identical in tadm.py and
tadm_polars/pyodbc.py): only the Windows and Linux platforms return a
driver name; every other platform string raises NotImplementedError,
modelled as the error branch. -/
def get_driver (system : String) : Except String String :=
  if system = "Windows" then
    Except.ok "Microsoft Access Driver (*.mdb, *.accdb)"
  else if system = "Linux" then
    Except.ok "MDBToolsODBC"
  else
    Except.error "OS must be either Windows or Linux"

end Tadm

namespace TadmPolars

/-- get_driver of tadm_polars/data.py: the Linux and Darwin platforms both
return MDBToolsODBC; every other non-Windows platform string raises
NotImplementedError, modelled as the error branch. -/
def get_driver (system : String) : Except String String :=
  if system = "Windows" then
    Except.ok "Microsoft Access Driver (*.mdb, *.accdb)"
  else if system = "Linux" ∨ system = "Darwin" then
    Except.ok "MDBToolsODBC"
  else
    Except.error "OS must be either Windows, Linux or Mac"

end TadmPolars

/-- The host environment facts the backend selector of tadm_polars/data.py
inspects: the platform.system() string, the list returned by
pyodbc.drivers() when the pyodbc module is importable (none models
ModuleNotFoundError), and whether running mdb-export with the version
flag succeeds. -/
structure Env where
  platform : String
  pyodbcDrivers : Option (List String)
  mdbExportVersionOk : Bool

/-- check_odbc of tadm_polars/data.py: true when pyodbc imports, the
platform has an expected driver name, and that name is registered; all
three failure paths (ModuleNotFoundError, NotImplementedError, name not
in the registry) return false. -/
def check_odbc (env : Env) : Bool :=
  match env.pyodbcDrivers with
  | none => false
  | some ds =>
    match TadmPolars.get_driver env.platform with
    | Except.ok d => decide (d ∈ ds)
    | Except.error _ => false

/-- check_for_mdbtools of tadm_polars/data.py: true when invoking
mdb-export with the version flag succeeds, false on FileNotFoundError. -/
def check_for_mdbtools (env : Env) : Bool :=
  env.mdbExportVersionOk

/-- get_data_module of tadm_polars/data.py: prefer the pyodbc backend,
else the mdbtools backend, else raise RuntimeError (the error branch). -/
def get_data_module (env : Env) : Except String String :=
  if check_odbc env then Except.ok "tadm_polars.pyodbc"
  else if check_for_mdbtools env then Except.ok "tadm_polars.mdbtools"
  else Except.error "Neither pyodbc or mdbtools was found"

/-- The platform's expected ODBC driver is registered: pyodbc is
importable, the platform resolves to a driver name, and that name is in
the driver registry reported by pyodbc.drivers(). -/
def DriverRegistered (env : Env) : Prop :=
  ∃ ds d, env.pyodbcDrivers = some ds ∧
    TadmPolars.get_driver env.platform = Except.ok d ∧ d ∈ ds

/-- A row of the TadmCurve table as stored in the source database (the
columns selected by both backends' import_tadm_data, before decoding).
The Volume scalar is carried opaquely as an integer payload; its value
takes no part in any operation verified here. -/
structure RawCurveRow where
  curveId : Int
  liquidClassName : List Char
  stepType : Int
  volume : Int
  timeStamp : List Char
  stepNumber : Int
  channelNumber : Nat
  curvePoints : List Byte
deriving DecidableEq

/-- A row of the LiquidClass table (join-key column name normalized to
LiquidClassID, the spelling used by tadm/pyodbc.py and tadm/mdbtools.py). -/
structure RawLiquidClassRow where
  liquidClassID : Int
  liquidClassName : List Char
deriving DecidableEq

/-- A row of the TadmToleranceBand table. -/
structure RawToleranceBandRow where
  liquidClassID : Int
  stepType : Int
  lowerToleranceBand : List Byte
  upperToleranceBand : List Byte
deriving DecidableEq

/-- The three source tables both backends read, in the row order the
database delivers them (both extraction mechanisms enumerate the same
stored rows in the same order). -/
structure SourceDB where
  tadmCurve : List RawCurveRow
  liquidClass : List RawLiquidClassRow
  tadmToleranceBand : List RawToleranceBandRow

/-- A CurveRecord: a TadmCurve row enriched with the decoded TADM sample
array (none models the ValueError numpy raises on a malformed blob). -/
structure CurveRecord where
  curveId : Int
  liquidClassName : List Char
  stepType : Int
  volume : Int
  timeStamp : List Char
  stepNumber : Int
  channelNumber : Nat
  curvePoints : List Byte
  tadm : Option (List Int)
deriving DecidableEq

/-- Enrich one raw curve row with its decoded sample array, as
df.apply with np.frombuffer does row-wise. -/
def decodeCurveRow (r : RawCurveRow) : CurveRecord :=
  { curveId := r.curveId
    liquidClassName := r.liquidClassName
    stepType := r.stepType
    volume := r.volume
    timeStamp := r.timeStamp
    stepNumber := r.stepNumber
    channelNumber := r.channelNumber
    curvePoints := r.curvePoints
    tadm := bin_to_int r.curvePoints }

/-- The TadmToleranceBand table after decoding its two blob columns
(columns LiquidClassID, StepType, LowerToleranceBand, UpperToleranceBand,
LowerToleranceBandTADM, UpperToleranceBandTADM). -/
structure DecodedTolRow where
  liquidClassID : Int
  stepType : Int
  lowerToleranceBand : List Byte
  upperToleranceBand : List Byte
  lowerToleranceBandTADM : Option (List Int)
  upperToleranceBandTADM : Option (List Int)
deriving DecidableEq

/-- Decode the two blob columns of one tolerance-band row. -/
def decodeTolRow (r : RawToleranceBandRow) : DecodedTolRow :=
  { liquidClassID := r.liquidClassID
    stepType := r.stepType
    lowerToleranceBand := r.lowerToleranceBand
    upperToleranceBand := r.upperToleranceBand
    lowerToleranceBandTADM := bin_to_int r.lowerToleranceBand
    upperToleranceBandTADM := bin_to_int r.upperToleranceBand }

/-- A ToleranceBand record as returned by import_tolerance_band_data:
the inner join of the filtered LiquidClass table with the decoded
TadmToleranceBand table on LiquidClassID. -/
structure ToleranceBandRecord where
  liquidClassID : Int
  liquidClassName : List Char
  stepType : Int
  lowerToleranceBand : List Byte
  upperToleranceBand : List Byte
  lowerToleranceBandTADM : Option (List Int)
  upperToleranceBandTADM : Option (List Int)
deriving DecidableEq

/-- pd.merge(df, data, how inner, on LiquidClassID): for each liquid-class
row in order, one output row per matching decoded band row in order. -/
def joinLCTol (df : List RawLiquidClassRow) (data : List DecodedTolRow) :
    List ToleranceBandRecord :=
  df.flatMap (fun l =>
    (data.filter (fun t => decide (t.liquidClassID = l.liquidClassID))).map
      (fun t =>
        { liquidClassID := l.liquidClassID
          liquidClassName := l.liquidClassName
          stepType := t.stepType
          lowerToleranceBand := t.lowerToleranceBand
          upperToleranceBand := t.upperToleranceBand
          lowerToleranceBandTADM := t.lowerToleranceBandTADM
          upperToleranceBandTADM := t.upperToleranceBandTADM }))

namespace Pyodbc

/-- import_tadm_data of tadm/pyodbc.py: select the TadmCurve columns over
the driver connection and decode CurvePoints row-wise. -/
def import_tadm_data (db : SourceDB) : List CurveRecord :=
  db.tadmCurve.map decodeCurveRow

/-- import_tolerance_band_data of tadm/pyodbc.py: select LiquidClass,
keep rows whose name is in lc_names, select TadmToleranceBand, decode its
two blob columns, and inner-join the two on LiquidClassID. -/
def import_tolerance_band_data (db : SourceDB) (lc_names : List (List Char)) :
    List ToleranceBandRecord :=
  let df := db.liquidClass.filter (fun r => decide (r.liquidClassName ∈ lc_names))
  let data := db.tadmToleranceBand.map decodeTolRow
  joinLCTol df data

end Pyodbc

namespace Mdbtools

/-- import_tadm_data of tadm/mdbtools.py: mdb-export writes the TadmCurve
table as delimited text with CurvePoints hex-encoded, the CSV reader
parses it back (scalar and text columns are transported verbatim and
modelled as the identity), the bytes.fromhex converter decodes the hex
column, and the sample decode is then identical to the pyodbc backend.
A hex parse failure (none) models the converter raising. -/
def import_tadm_data (db : SourceDB) : Option (List CurveRecord) :=
  db.tadmCurve.mapM (fun r =>
    (hexToBytes (bytesToHex r.curvePoints)).map (fun blob =>
      decodeCurveRow { r with curvePoints := blob }))

/-- import_tolerance_band_data of tadm/mdbtools.py: LiquidClass rows pass
through the CSV stream unchanged, TadmToleranceBand rows have their two
binary columns hex-encoded by mdb-export and hex-decoded by the
converters, then filtering, decoding and the inner join are identical to
the pyodbc backend. -/
def import_tolerance_band_data (db : SourceDB) (lc_names : List (List Char)) :
    Option (List ToleranceBandRecord) := do
  let df := db.liquidClass.filter (fun r => decide (r.liquidClassName ∈ lc_names))
  let rawBand ← db.tadmToleranceBand.mapM (fun r => do
    let lo ← hexToBytes (bytesToHex r.lowerToleranceBand)
    let hi ← hexToBytes (bytesToHex r.upperToleranceBand)
    pure { r with lowerToleranceBand := lo, upperToleranceBand := hi })
  pure (joinLCTol df (rawBand.map decodeTolRow))

end Mdbtools

/-- The non-key columns a matching tolerance-band row contributes to a
merged row (everything of ToleranceBandRecord except the two join-key
columns LiquidClassName and StepType). -/
structure TolPayload where
  liquidClassID : Int
  lowerToleranceBand : List Byte
  upperToleranceBand : List Byte
  lowerToleranceBandTADM : Option (List Int)
  upperToleranceBandTADM : Option (List Int)
deriving DecidableEq

/-- The payload of a tolerance-band record. -/
def ToleranceBandRecord.payload (t : ToleranceBandRecord) : TolPayload :=
  { liquidClassID := t.liquidClassID
    lowerToleranceBand := t.lowerToleranceBand
    upperToleranceBand := t.upperToleranceBand
    lowerToleranceBandTADM := t.lowerToleranceBandTADM
    upperToleranceBandTADM := t.upperToleranceBandTADM }

/-- One row of the merged table: a curve record, plus the matching
tolerance-band payload, or none where the left join found no match (the
NaN-filled columns pandas produces there). -/
structure MergedRow where
  curve : CurveRecord
  tol : Option TolPayload
deriving DecidableEq

/-- merge_tadm_and_tolerance_data of tadm/pyodbc.py and tadm/mdbtools.py:
pd.merge(tadm_data, tol_band_data, how left, on LiquidClassName and
StepType).  For each curve row in order: one output row per matching
tolerance row in order, or a single row with absent tolerance columns
when no tolerance row matches. -/
def merge_tadm_and_tolerance_data (tadm_data : List CurveRecord)
    (tol_band_data : List ToleranceBandRecord) : List MergedRow :=
  tadm_data.flatMap (fun c =>
    if (tol_band_data.filter (fun t =>
        decide (t.liquidClassName = c.liquidClassName ∧
          t.stepType = c.stepType))).isEmpty then
      [{ curve := c, tol := none }]
    else
      (tol_band_data.filter (fun t =>
        decide (t.liquidClassName = c.liquidClassName ∧
          t.stepType = c.stepType))).map
        (fun t => { curve := c, tol := some t.payload }))

/-- The special characters of the Python regular-expression syntax that
pandas Series.str.contains and polars Expr.str.contains apply to the name
argument by default (regex matching, not literal matching): the dot
wildcard, anchors, quantifiers, repetition braces, character classes,
grouping, escaping and alternation. -/
def reMetachars : List Char :=
  ['.', '^', '$', '*', '+', '?', '\x7b', '\x7d', '[', ']', '(', ')',
   '\\', '|']

/-- An atom of the modelled regex fragment: a literal character or the
any-character wildcard. -/
inductive RAtom where
  | lit (c : Char)
  | dot
deriving DecidableEq

/-- A piece of the modelled regex fragment: an atom taken exactly once,
or under the star (zero or more), plus (one or more) or question (zero
or one) quantifier. -/
inductive RPiece where
  | once (a : RAtom)
  | star (a : RAtom)
  | plus (a : RAtom)
  | opt (a : RAtom)
deriving DecidableEq

/-- The atom a single pattern character denotes: the dot is the
wildcard, any other character matches itself. -/
def charAtom (c : Char) : RAtom :=
  if c = '.' then RAtom.dot else RAtom.lit c

/-- Read a name string as a pattern of the modelled regex fragment:
literal characters and the dot wildcard, optionally followed by a star,
plus or question quantifier.  Any other regex metacharacter is outside
the modelled fragment and yields none — the embedding abstains there
rather than assigning the program a behavior the Python regex engine
does not have. -/
def reParse : List Char → Option (List RPiece)
  | [] => some []
  | c :: cs =>
    if c ∈ reMetachars ∧ ¬ c = '.' then none
    else
      match cs with
      | [] => some [RPiece.once (charAtom c)]
      | q :: rest =>
        if q = '*' then
          (reParse rest).map (fun ps => RPiece.star (charAtom c) :: ps)
        else if q = '+' then
          (reParse rest).map (fun ps => RPiece.plus (charAtom c) :: ps)
        else if q = '?' then
          (reParse rest).map (fun ps => RPiece.opt (charAtom c) :: ps)
        else
          (reParse (q :: rest)).map (fun ps => RPiece.once (charAtom c) :: ps)

/-- Whether an atom matches one character. -/
def matchAtom (a : RAtom) (c : Char) : Bool :=
  match a with
  | RAtom.dot => true
  | RAtom.lit l => decide (l = c)

/-- Match zero or more characters of the text against the atom a and the
continuation k on the remainder: the complete backtracking search for a
starred atom. -/
def starMatch (a : RAtom) (k : List Char → Bool) : List Char → Bool
  | [] => k []
  | c :: cs => k (c :: cs) || (matchAtom a c && starMatch a k cs)

/-- Match a pattern against a prefix of the text (complete backtracking
search, so this decides whether some prefix of the text is in the
pattern's language). -/
def reMatchHere : List RPiece → List Char → Bool
  | [], _ => true
  | RPiece.once a :: ps, s =>
    match s with
    | [] => false
    | c :: cs => matchAtom a c && reMatchHere ps cs
  | RPiece.star a :: ps, s => starMatch a (reMatchHere ps) s
  | RPiece.plus a :: ps, s =>
    match s with
    | [] => false
    | c :: cs => matchAtom a c && starMatch a (reMatchHere ps) cs
  | RPiece.opt a :: ps, s =>
    reMatchHere ps s ||
      (match s with
       | [] => false
       | c :: cs => matchAtom a c && reMatchHere ps cs)

/-- re.search semantics: the pattern matches at some position of the
text. -/
def reSearch (pat : List RPiece) : List Char → Bool
  | [] => reMatchHere pat []
  | c :: cs => reMatchHere pat (c :: cs) || reSearch pat cs

/-- get_data_for_step of tadm/plotter.py: the liquid-class filter plus an
exact comparison of the raw StepType code. -/
def get_data_for_step (df : List MergedRow) (liquid_class : List Char)
    (step_type : Int) : Option (List MergedRow) :=
  (reParse liquid_class).map (fun pat =>
    df.filter (fun r =>
      reSearch pat r.curve.liquidClassName &&
        decide (r.curve.stepType = step_type)))

/-- The columns of the merged table that plot_both_steps reads, one row
per curve: the two join keys, the channel, the decoded sample array, and
the two decoded tolerance-band columns (none is the NaN a left join
leaves where no tolerance row matched). -/
structure PRow where
  liquidClassName : List Char
  stepType : Int
  channelNumber : Nat
  tadm : List Int
  lowerToleranceBandTADM : Option (List Int)
  upperToleranceBandTADM : Option (List Int)
deriving DecidableEq

/-- Largest element of a list of integers; none for the empty list, over
which np.max raises. -/
def listMax : List Int → Option Int
  | [] => none
  | [x] => some x
  | x :: y :: rest => (listMax (y :: rest)).map (fun m => max x m)

/-- Smallest element of a list of integers; none for the empty list. -/
def listMin : List Int → Option Int
  | [] => none
  | [x] => some x
  | x :: y :: rest => (listMin (y :: rest)).map (fun m => min x m)

/-- calc_y_limits of tadm/plotter.py: the per-row maxima and minima of the
TADM arrays, reduced again, widened by 100 on each side; an empty frame or
an empty sample array makes np.max raise, modelled as none. -/
def calc_y_limits (step_data : List PRow) : Option (Int × Int) := do
  let maxs ← step_data.mapM (fun r => listMax r.tadm)
  let mins ← step_data.mapM (fun r => listMin r.tadm)
  let y_max ← listMax maxs
  let y_min ← listMin mins
  pure (y_min - 100, y_max + 100)

/-- calc_x_limits of tadm/plotter.py: (0, largest TADM array length). -/
def calc_x_limits (step_data : List PRow) : Option (Int × Int) := do
  let x_max ← listMax (step_data.map (fun r => (r.tadm.length : Int)))
  pure (0, x_max)

/-- Split a decoded tolerance array into its even-position elements (the
x break points) and odd-position elements (the pressure levels), as the
slices with stride two do. -/
def stride2 : List Int → List Int × List Int
  | [] => ([], [])
  | [x] => ([x], [])
  | x :: y :: rest =>
    let p := stride2 rest
    (x :: p.1, y :: p.2)

/-- The fixed 8-entry channel palette of tadm/plotter.py and
tadm_polars/plotter.py. -/
def cols : List String :=
  ["cornflowerblue", "orange", "mediumseagreen", "mediumorchid",
   "palevioletred", "yellowgreen", "lightcoral", "slateblue"]

/-- Python list indexing: non-negative indices from the front, negative
indices from the back, out of range raises IndexError (none). -/
def pyIndex (l : List String) (i : Int) : Option String :=
  if 0 ≤ i then l[i.toNat]?
  else if (-i).toNat ≤ l.length then l[l.length - (-i).toNat]?
  else none

/-- One rendered LineCollection: the curves of one channel group with
their assigned colour and legend label. -/
structure ChannelLines where
  channel : Nat
  color : String
  label : List Char
  curves : List (List Int)
deriving DecidableEq

/-- The distinct channel numbers of a frame in ascending order, the group
order of pandas groupby (sort enabled by default). -/
def sortedChannelKeys (rows : List PRow) : List Nat :=
  (rows.foldl (fun acc r =>
      if r.channelNumber ∈ acc then acc else acc ++ [r.channelNumber]) []).foldr
    (fun x sorted =>
      match sorted with
      | [] => [x]
      | _ => sorted.takeWhile (fun y => decide (y < x)) ++
          x :: sorted.dropWhile (fun y => decide (y < x))) []

/-- The distinct channel numbers of a frame in order of first appearance,
the group order of polars group_by with maintain_order. -/
def firstAppearanceKeys (rows : List PRow) : List Nat :=
  rows.foldl (fun acc r =>
    if r.channelNumber ∈ acc then acc else acc ++ [r.channelNumber]) []

/-- The channel-group rendering loop of tadm/plotter.py plot_both_steps:
pandas groupby yields the groups in ascending channel order, and each
group's LineCollection is coloured cols[i - 1] for group key i (Python
list indexing, so an out-of-palette channel raises IndexError) and
labelled with the channel number. -/
def pandasChannelLines (step_data : List PRow) :
    Except String (List ChannelLines) :=
  (sortedChannelKeys step_data).mapM (fun (i : Nat) =>
    match pyIndex cols ((i : Int) - 1) with
    | none => Except.error "IndexError"
    | some c => Except.ok
        { channel := i
          color := c
          label := ("Channel " ++ toString i).toList
          curves := (step_data.filter (fun r => decide (r.channelNumber = i))).map
            (fun r => r.tadm) })

/-- The channel-group rendering loop of tadm_polars/plotter.py
plot_both_steps: polars group_by with maintain_order yields the groups in
first-appearance order, and the enumerate counter i, not the channel
number, picks the colour cols[i] and the label text. -/
def polarsChannelLines (step_data : List PRow) :
    Except String (List ChannelLines) :=
  ((firstAppearanceKeys step_data).enum).mapM (fun p =>
    match cols[p.1]? with
    | none => Except.error "IndexError"
    | some c => Except.ok
        { channel := p.2
          color := c
          label := ("Channel " ++ toString (p.1 + 1)).toList
          curves := (step_data.filter (fun r => decide (r.channelNumber = p.2))).map
            (fun r => r.tadm) })

/-- What one band iteration of the tolerance-band loop contributes: either
a plotted band line (the x and y sequences of the step-function envelope)
or a pair of fallback axis limits. -/
structure BandOutcome where
  bandLine : Option (List Int × List Int)
  fallback : Option ((Int × Int) × (Int × Int))
deriving DecidableEq

/-- One iteration of the tolerance-band loop of plot_both_steps
(tadm/plotter.py): read the band column of the first row of the step
partition (IndexError on an empty partition), fall back to computed axis
limits when the value is the NaN of an unmatched left join, and otherwise
plot the even-position elements against the odd-position elements. -/
def bandStep (step_data : List PRow) (proj : PRow → Option (List Int)) :
    Except String BandOutcome :=
  match step_data.head? with
  | none => Except.error "IndexError"
  | some r0 =>
    match proj r0 with
    | none =>
      match calc_y_limits step_data, calc_x_limits step_data with
      | some yl, some xl => Except.ok { bandLine := none, fallback := some (yl, xl) }
      | _, _ => Except.error "ValueError"
    | some arr => Except.ok { bandLine := some (stride2 arr), fallback := none }

/-- One rendered panel of the two-panel figure. -/
structure Panel where
  title : List Char
  bandLines : List (List Int × List Int)
  limits : Option ((Int × Int) × (Int × Int))
  channels : List ChannelLines
deriving DecidableEq

/-- Render one panel of plot_both_steps (tadm/plotter.py): set the panel
title to the step type's display name, filter the liquid-class subset by
the raw step-type code, run the two band iterations (lower then upper; a
later fallback assignment overwrites an earlier one), and render the
channel groups. -/
def renderPanel (data : List PRow) (stepCode : Int) (stepName : List Char) :
    Except String Panel := do
  let step_data := data.filter (fun r => decide (r.stepType = stepCode))
  let lower ← bandStep step_data (fun r => r.lowerToleranceBandTADM)
  let upper ← bandStep step_data (fun r => r.upperToleranceBandTADM)
  let chans ← pandasChannelLines step_data
  pure
    { title := stepName
      bandLines := [lower.bandLine, upper.bandLine].filterMap id
      limits := upper.fallback.orElse (fun _ => lower.fallback)
      channels := chans }

/-- plot_both_steps of tadm/plotter.py, modelled up to figure output: the
figure title is the LiquidClassName of the first row (IndexError on an
empty frame), then the Aspirate panel and the Dispense panel are rendered
in that fixed order.  Legend assembly and the save/show calls draw what
is already computed here and are not modelled. -/
def plot_both_steps (data : List PRow) :
    Except String (List Char × Panel × Panel) := do
  let title ← match data.head? with
    | none => Except.error "IndexError"
    | some r => pure r.liquidClassName
  let p1 ← renderPanel data (StepType.code StepType.Aspirate) "Aspirate".toList
  let p2 ← renderPanel data (StepType.code StepType.Dispense) "Dispense".toList
  pure (title, p1, p2)

/-- A concrete curve record for the worked examples: liquid class name,
raw step-type code and channel number are the arguments, the remaining
payload columns are fixed. -/
def mkCurve (name : List Char) (st : Int) (ch : Nat) : CurveRecord :=
  { curveId := 0
    liquidClassName := name
    stepType := st
    volume := 0
    timeStamp := []
    stepNumber := 0
    channelNumber := ch
    curvePoints := []
    tadm := some [] }

/-- Curve row of liquid class A, Aspirate step. -/
def curveA : CurveRecord := mkCurve ['A'] (-533331728) 1

/-- Curve row of liquid class B, Aspirate step. -/
def curveB : CurveRecord := mkCurve ['B'] (-533331728) 1

/-- Tolerance-band row for liquid class A, Aspirate step. -/
def tolA : ToleranceBandRecord :=
  { liquidClassID := 7
    liquidClassName := ['A']
    stepType := -533331728
    lowerToleranceBand := [0, 0]
    upperToleranceBand := [0, 1]
    lowerToleranceBandTADM := some [0]
    upperToleranceBandTADM := some [256] }

/-- A plot-input row of the Aspirate step type with both tolerance bands
present. -/
def c3RowAsp : PRow :=
  { liquidClassName := ['W']
    stepType := -533331728
    channelNumber := 1
    tadm := [0, 5]
    lowerToleranceBandTADM := some [0, -10, 10, -10]
    upperToleranceBandTADM := some [0, 40, 10, 40] }

/-- The same plot-input row with the Dispense step-type code. -/
def c3RowDisp : PRow :=
  { liquidClassName := ['W']
    stepType := -533331727
    channelNumber := 1
    tadm := [0, 5]
    lowerToleranceBandTADM := some [0, -10, 10, -10]
    upperToleranceBandTADM := some [0, 40, 10, 40] }

/-- A plot-input row recorded on channel 3. -/
def ch3Row : PRow :=
  { liquidClassName := ['W']
    stepType := -533331728
    channelNumber := 3
    tadm := [1, 2]
    lowerToleranceBandTADM := some [0, 0]
    upperToleranceBandTADM := some [0, 9] }

/-- A plot-input row recorded on channel 5. -/
def ch5Row : PRow :=
  { liquidClassName := ['W']
    stepType := -533331728
    channelNumber := 5
    tadm := [3, 4]
    lowerToleranceBandTADM := some [0, 0]
    upperToleranceBandTADM := some [0, 9] }

/-- Re-encoding a decoded 16-bit value restores its two source bytes. -/
theorem encodeI16_decodeI16 (lo hi : Byte) :
    encodeI16 (decodeI16 lo hi) = [lo, hi] := by
  obtain ⟨l, hl⟩ := lo
  obtain ⟨h, hh⟩ := hi
  simp only [encodeI16, decodeI16, List.cons.injEq, and_true, Fin.mk.injEq]
  split <;> constructor <;> omega

/-- Decoding an even-length byte sequence and re-encoding the result
restores the byte sequence. -/
theorem bin_to_int_roundtrip :
    ∀ (bs : List Byte) (vs : List Int), bin_to_int bs = some vs →
      int_to_bin vs = bs
  | [], vs, hv => by
      simp only [bin_to_int, Option.some.injEq] at hv
      subst hv
      rfl
  | [_], _, hv => Option.noConfusion hv
  | lo :: hi :: rest, vs, hv => by
      cases hrest : bin_to_int rest with
      | none =>
          rw [bin_to_int, hrest] at hv
          simp at hv
      | some ws =>
          rw [bin_to_int, hrest] at hv
          simp only [Option.map_some', Option.some.injEq] at hv
          subst hv
          have ih := bin_to_int_roundtrip rest ws hrest
          simp [int_to_bin, encodeI16_decodeI16, ih, int_to_bin] at ih ⊢
          exact ih

/-- The decoder fails exactly on odd-length inputs and yields half as
many samples as bytes on even-length inputs. -/
theorem bin_to_int_parity :
    ∀ bs : List Byte,
      (Odd bs.length → bin_to_int bs = none) ∧
      (Even bs.length → ∃ vs, bin_to_int bs = some vs ∧
        vs.length = bs.length / 2)
  | [] => by
      constructor
      · intro hodd
        simp [Nat.odd_iff] at hodd
      · intro _
        exact ⟨[], rfl, rfl⟩
  | [_] => by
      constructor
      · intro _
        rfl
      · intro heven
        simp [Nat.even_iff] at heven
  | lo :: hi :: rest => by
      obtain ⟨ho, he⟩ := bin_to_int_parity rest
      constructor
      · intro hodd
        have hr : Odd rest.length := by
          simp only [List.length_cons, Nat.odd_iff] at hodd ⊢
          omega
        rw [bin_to_int, ho hr]
        rfl
      · intro heven
        have hr : Even rest.length := by
          simp only [List.length_cons, Nat.even_iff] at heven ⊢
          omega
        obtain ⟨vs, hvs, hlen⟩ := he hr
        refine ⟨decodeI16 lo hi :: vs, ?_, ?_⟩
        · rw [bin_to_int, hvs]
          rfl
        · simp only [List.length_cons, hlen]
          omega

/-- Reading back the hex digit of a nibble restores the nibble. -/
theorem charNibble_nibbleChar (n : Fin 16) :
    charNibble (nibbleChar n) = some n := by
  revert n
  decide

/-- A byte is rebuilt from its two nibbles. -/
theorem mkByte_hi_lo (b : Byte) : mkByte (hiNibble b) (loNibble b) = b := by
  obtain ⟨v, hv⟩ := b
  simp only [mkByte, hiNibble, loNibble, Fin.mk.injEq]
  omega

/-- Hex-decoding the hex encoding of a blob restores the blob: the
transport of binary columns through the mdb-export text stream is
lossless. -/
theorem hexToBytes_bytesToHex (bs : List Byte) :
    hexToBytes (bytesToHex bs) = some bs := by
  induction bs with
  | nil => rfl
  | cons b bs ih =>
      show hexToBytes (nibbleChar (hiNibble b) :: nibbleChar (loNibble b) ::
        bytesToHex bs) = some (b :: bs)
      rw [hexToBytes, charNibble_nibbleChar, charNibble_nibbleChar]
      simp [ih, mkByte_hi_lo]

/-- The mapM loop in the Option monad, when its body always succeeds,
accumulates exactly the pointwise values. -/
theorem mapM_loop_eq {α β : Type} (f : α → Option β) (g : α → β) :
    ∀ (l : List α) (acc : List β), (∀ a ∈ l, f a = some (g a)) →
      List.mapM.loop f l acc = some (acc.reverse ++ l.map g)
  | [], acc, _ => by
      simp [List.mapM.loop]
  | x :: xs, acc, h => by
      rw [List.mapM.loop, h x (List.mem_cons_self x xs)]
      show List.mapM.loop f xs (g x :: acc) = _
      rw [mapM_loop_eq f g xs (g x :: acc)
        (fun a ha => h a (List.mem_cons_of_mem x ha))]
      simp

/-- A mapM in the Option monad whose body always succeeds is the map of
the pointwise values. -/
theorem mapM_eq_map {α β : Type} (f : α → Option β) (g : α → β)
    (l : List α) (h : ∀ a ∈ l, f a = some (g a)) :
    l.mapM f = some (l.map g) := by
  rw [show l.mapM f = List.mapM.loop f l [] from rfl, mapM_loop_eq f g l [] h]
  simp

/-- check_odbc succeeds exactly when the platform's expected driver is
registered. -/
theorem check_odbc_iff (env : Env) :
    check_odbc env = true ↔ DriverRegistered env := by
  unfold check_odbc DriverRegistered
  cases hd : env.pyodbcDrivers with
  | none => simp
  | some ds =>
      cases hg : TadmPolars.get_driver env.platform with
      | ok d => simp [decide_eq_true_iff]
      | error e => simp

/-- C1: for every source database and liquid-class name set, the
mdb-export backend produces exactly the CurveRecord and ToleranceBand
collections of the pyodbc backend — the same rows with identical decoded
sample arrays (TADM, LowerToleranceBandTADM, UpperToleranceBandTADM) —
after column-name normalization, for both import_tadm_data and
import_tolerance_band_data. -/
theorem c1_backend_equivalence (db : SourceDB) (lc_names : List (List Char)) :
    Mdbtools.import_tadm_data db = some (Pyodbc.import_tadm_data db) ∧
    Mdbtools.import_tolerance_band_data db lc_names =
      some (Pyodbc.import_tolerance_band_data db lc_names) := by
  constructor
  · unfold Mdbtools.import_tadm_data Pyodbc.import_tadm_data
    apply mapM_eq_map
    intro r _
    rw [hexToBytes_bytesToHex]
    rfl
  · unfold Mdbtools.import_tolerance_band_data Pyodbc.import_tolerance_band_data
    rw [mapM_eq_map
      (fun r => do
        let lo ← hexToBytes (bytesToHex r.lowerToleranceBand)
        let hi ← hexToBytes (bytesToHex r.upperToleranceBand)
        pure { r with lowerToleranceBand := lo, upperToleranceBand := hi })
      id db.tadmToleranceBand
      (fun r _ => by simp [hexToBytes_bytesToHex])]
    simp

/-- C2: the claim states that StepType.from_int maps -533331728 to
Aspirate, -533331727 to Dispense and everything else to Unknown; the
repository's decoder instead maps -533331727 to Aspirate as well (the
copy-paste defect its own design notes flag), as these evaluations
show. -/
theorem c2_step_type_decode_defect :
    StepType.from_int (-533331728) = StepType.Aspirate ∧
    StepType.from_int (-533331727) = StepType.Aspirate ∧
    ¬ StepType.from_int (-533331727) = StepType.Dispense ∧
    StepType.from_int 0 = StepType.Unknown ∧
    StepType.from_int 42 = StepType.Unknown := by
  refine ⟨rfl, rfl, ?_, rfl, rfl⟩
  intro h
  exact StepType.noConfusion h

/-- C3: the claim states that plot_both_steps renders both panels and
completes without error on a non-empty subset containing only one of the
two step-type codes; in fact a subset with only Aspirate rows makes the
Dispense panel's first-row access raise IndexError, while a subset with
rows of both codes renders the two panels in the fixed Aspirate,
Dispense order. -/
theorem c3_single_step_type_subset :
    plot_both_steps [c3RowAsp] = Except.error "IndexError" ∧
    (plot_both_steps [c3RowAsp, c3RowDisp]).map
        (fun r => (r.2.1.title, r.2.2.title)) =
      Except.ok ("Aspirate".toList, "Dispense".toList) :=
  ⟨rfl, rfl⟩

/-- C5: decoding an even-length byte sequence as signed 16-bit
little-endian integers and re-encoding the integers restores the byte
sequence exactly (whenever bin_to_int succeeds, int_to_bin inverts
it). -/
theorem c5_decode_encode_roundtrip (bs : List Byte) (vs : List Int)
    (h : bin_to_int bs = some vs) : int_to_bin vs = bs :=
  bin_to_int_roundtrip bs vs h

/-- C5 witness: decode and re-encode a concrete four-byte blob holding
4660 and -1. -/
theorem c5_decode_encode_roundtrip_witness :
    bin_to_int [(52 : Byte), 18, 255, 255] = some [4660, -1] ∧
    int_to_bin [4660, -1] = [(52 : Byte), 18, 255, 255] :=
  ⟨by decide, c5_decode_encode_roundtrip [(52 : Byte), 18, 255, 255]
    [4660, -1] (by decide)⟩

/-- C10: the binary-sample decoder fails (numpy's buffer-size ValueError,
modelled as none) on every odd-length byte sequence, and on every
even-length byte sequence, the empty one included, it succeeds with
exactly length / 2 samples. -/
theorem c10_decoder_parity (bs : List Byte) :
    (Odd bs.length → bin_to_int bs = none) ∧
    (Even bs.length → ∃ vs, bin_to_int bs = some vs ∧
      vs.length = bs.length / 2) :=
  bin_to_int_parity bs

/-- C10 witness: a one-byte input fails, a two-byte input yields one
sample. -/
theorem c10_decoder_parity_witness :
    bin_to_int [(7 : Byte)] = none ∧
    ∃ vs, bin_to_int [(7 : Byte), 7] = some vs ∧
      vs.length = [(7 : Byte), 7].length / 2 :=
  ⟨(c10_decoder_parity [(7 : Byte)]).1 ⟨0, rfl⟩,
   (c10_decoder_parity [(7 : Byte), 7]).2 ⟨1, rfl⟩⟩

/-- C4: merge_tadm_and_tolerance_data is a left, curve-preserving join on
(LiquidClassName, StepType): every curve row appears in the result, a
merged row's tolerance payload is present exactly when a matching
tolerance row exists and then comes from such a row, and in particular
merging curve classes A and B with a tolerance table holding only A
yields A populated and B with absent tolerance fields. -/
theorem c4_merge_left_join (cs : List CurveRecord)
    (ts : List ToleranceBandRecord) :
    (∀ c ∈ cs, ∃ m ∈ merge_tadm_and_tolerance_data cs ts, m.curve = c) ∧
    (∀ m ∈ merge_tadm_and_tolerance_data cs ts,
      m.curve ∈ cs ∧
      (m.tol = none → ∀ t ∈ ts,
        ¬(t.liquidClassName = m.curve.liquidClassName ∧
          t.stepType = m.curve.stepType)) ∧
      (∀ p, m.tol = some p → ∃ t ∈ ts,
        t.liquidClassName = m.curve.liquidClassName ∧
        t.stepType = m.curve.stepType ∧ t.payload = p)) ∧
    merge_tadm_and_tolerance_data [curveA, curveB] [tolA] =
      [{ curve := curveA, tol := some tolA.payload },
       { curve := curveB, tol := none }] := by
  refine ⟨?_, ?_, by decide⟩
  · intro c hc
    by_cases hE : (ts.filter (fun t =>
        decide (t.liquidClassName = c.liquidClassName ∧
          t.stepType = c.stepType))).isEmpty = true
    · refine ⟨{ curve := c, tol := none }, ?_, rfl⟩
      simp only [merge_tadm_and_tolerance_data, List.mem_flatMap]
      exact ⟨c, hc, by rw [if_pos hE]; exact List.mem_singleton.mpr rfl⟩
    · obtain ⟨t, ht⟩ := List.exists_mem_of_ne_nil
        (ts.filter (fun t =>
          decide (t.liquidClassName = c.liquidClassName ∧
            t.stepType = c.stepType)))
        (fun hnil => hE (by rw [hnil]; rfl))
      refine ⟨{ curve := c, tol := some t.payload }, ?_, rfl⟩
      simp only [merge_tadm_and_tolerance_data, List.mem_flatMap]
      refine ⟨c, hc, ?_⟩
      rw [if_neg hE]
      exact List.mem_map.mpr ⟨t, ht, rfl⟩
  · intro m hm
    simp only [merge_tadm_and_tolerance_data, List.mem_flatMap] at hm
    obtain ⟨c, hc, hmc⟩ := hm
    by_cases hE : (ts.filter (fun t =>
        decide (t.liquidClassName = c.liquidClassName ∧
          t.stepType = c.stepType))).isEmpty = true
    · rw [if_pos hE] at hmc
      have hm1 : m = { curve := c, tol := none } := List.mem_singleton.mp hmc
      subst hm1
      refine ⟨hc, ?_, ?_⟩
      · intro _ t ht hmatch
        have hmem : t ∈ ts.filter (fun t =>
            decide (t.liquidClassName = c.liquidClassName ∧
              t.stepType = c.stepType)) :=
          List.mem_filter.mpr ⟨ht, decide_eq_true hmatch⟩
        rw [List.isEmpty_iff.mp hE] at hmem
        exact absurd hmem (List.not_mem_nil t)
      · intro p hp
        exact absurd hp (by simp)
    · rw [if_neg hE] at hmc
      obtain ⟨t, htf, hmt⟩ := List.mem_map.mp hmc
      obtain ⟨ht, hpred⟩ := List.mem_filter.mp htf
      have hpred' := of_decide_eq_true hpred
      subst hmt
      refine ⟨hc, ?_, ?_⟩
      · intro h0
        exact absurd h0 (by simp)
      · intro p hp
        have hpp : t.payload = p := by
          simpa using hp
        exact ⟨t, ht, hpred'.1, hpred'.2, hpp⟩

/-- C4 witness: curve row B appears in the merged result of the concrete
A and B example. -/
theorem c4_merge_left_join_witness :
    ∃ m ∈ merge_tadm_and_tolerance_data [curveA, curveB] [tolA],
      m.curve = curveB :=
  (c4_merge_left_join [curveA, curveB] [tolA]).1 curveB
    (List.mem_cons_of_mem curveA (List.mem_singleton.mpr rfl))

/-- C6: the backend selector prefers the native driver: when the
platform's expected ODBC driver is registered it picks the pyodbc
backend; otherwise, when mdb-export answers the version query, it picks
the mdbtools backend; when neither holds it raises the explicit
RuntimeError instead of returning a backend. -/
theorem c6_backend_selector (env : Env) :
    (DriverRegistered env →
      get_data_module env = Except.ok "tadm_polars.pyodbc") ∧
    (¬ DriverRegistered env → check_for_mdbtools env = true →
      get_data_module env = Except.ok "tadm_polars.mdbtools") ∧
    (¬ DriverRegistered env → check_for_mdbtools env = false →
      get_data_module env = Except.error
        "Neither pyodbc or mdbtools was found") := by
  refine ⟨?_, ?_, ?_⟩
  · intro h
    unfold get_data_module
    rw [if_pos ((check_odbc_iff env).mpr h)]
  · intro h hm
    have hco : check_odbc env = false := by
      cases hcheck : check_odbc env with
      | false => rfl
      | true => exact absurd ((check_odbc_iff env).mp hcheck) h
    unfold get_data_module
    rw [hco, if_neg (by simp), if_pos hm]
  · intro h hm
    have hco : check_odbc env = false := by
      cases hcheck : check_odbc env with
      | false => rfl
      | true => exact absurd ((check_odbc_iff env).mp hcheck) h
    unfold get_data_module
    rw [hco, hm, if_neg (by simp), if_neg (by simp)]

/-- C6 witness: on a host without pyodbc but with a responding
mdb-export, the selector picks the mdbtools backend. -/
theorem c6_backend_selector_witness :
    get_data_module ⟨"Linux", none, true⟩ =
      Except.ok "tadm_polars.mdbtools" :=
  (c6_backend_selector _).2.1
    (fun h => by obtain ⟨ds, d, hds, _, _⟩ := h; exact Option.noConfusion hds)
    rfl

/-- C7: the claim states that in both plot_both_steps variants a curve on
channel c is rendered in the palette entry of index c - 1 regardless of
the other channels present; the pandas variant does colour by channel
number (channel 3 alone, or after channel 5, is mediumseagreen), but the
polars variant colours and labels by group enumeration order, so channel
3 is cornflowerblue as Channel 1 when alone, and orange when a channel-5
row comes first. -/
theorem c7_channel_palette :
    (renderPanel [ch3Row] (-533331728) "Aspirate".toList).map
        (fun p => p.channels.map (fun c => (c.channel, c.color))) =
      Except.ok [(3, "mediumseagreen")] ∧
    (renderPanel [ch5Row, ch3Row] (-533331728) "Aspirate".toList).map
        (fun p => p.channels.map (fun c => (c.channel, c.color))) =
      Except.ok [(3, "mediumseagreen"), (5, "palevioletred")] ∧
    (polarsChannelLines [ch3Row]).map
        (fun ls => ls.map (fun c => (c.channel, c.color, c.label))) =
      Except.ok [(3, "cornflowerblue", "Channel 1".toList)] ∧
    (polarsChannelLines [ch5Row, ch3Row]).map
        (fun ls => ls.map (fun c => (c.channel, c.color))) =
      Except.ok [(5, "cornflowerblue"), (3, "orange")] ∧
    cols[2]? = some "mediumseagreen" :=
  ⟨rfl, rfl, rfl, rfl, rfl⟩

/-- C8 counterexample: the claim states that get_driver returns
MDBToolsODBC when the platform is Linux or macOS; on the macOS platform
string the get_driver of tadm/pyodbc.py raises NotImplementedError
instead of returning MDBToolsODBC. -/
theorem c8_counterexample :
    Tadm.get_driver "Darwin" =
      Except.error "OS must be either Windows or Linux" ∧
    ¬ Tadm.get_driver "Darwin" = Except.ok "MDBToolsODBC" :=
  ⟨rfl, fun h => Except.noConfusion h⟩

/-- C8 amended: the get_driver of tadm_polars/data.py returns the Access
driver string on Windows and MDBToolsODBC on Linux and macOS, raising
NotImplementedError on every other platform; the get_driver of
tadm/pyodbc.py (and of tadm.py and tadm_polars/pyodbc.py) returns those
strings only on Windows and Linux and raises NotImplementedError on
every other platform, macOS included. -/
theorem c8_amended_platform_cases :
    Tadm.get_driver "Windows" =
      Except.ok "Microsoft Access Driver (*.mdb, *.accdb)" ∧
    Tadm.get_driver "Linux" = Except.ok "MDBToolsODBC" ∧
    TadmPolars.get_driver "Windows" =
      Except.ok "Microsoft Access Driver (*.mdb, *.accdb)" ∧
    TadmPolars.get_driver "Linux" = Except.ok "MDBToolsODBC" ∧
    TadmPolars.get_driver "Darwin" = Except.ok "MDBToolsODBC" ∧
    Tadm.get_driver "Darwin" =
      Except.error "OS must be either Windows or Linux" ∧
    (∀ s : String, ¬ s = "Windows" → ¬ s = "Linux" →
      Tadm.get_driver s =
        Except.error "OS must be either Windows or Linux") ∧
    (∀ s : String, ¬ s = "Windows" → ¬ s = "Linux" → ¬ s = "Darwin" →
      TadmPolars.get_driver s =
        Except.error "OS must be either Windows, Linux or Mac") := by
  refine ⟨rfl, rfl, rfl, rfl, rfl, rfl, ?_, ?_⟩
  · intro s h1 h2
    unfold Tadm.get_driver
    rw [if_neg h1, if_neg h2]
  · intro s h1 h2 h3
    unfold TadmPolars.get_driver
    rw [if_neg h1, if_neg (fun hor => hor.elim h2 h3)]

/-- C8 witness: both variants reject an unsupported platform string. -/
theorem c8_amended_platform_cases_witness :
    Tadm.get_driver "FreeBSD" =
      Except.error "OS must be either Windows or Linux" ∧
    TadmPolars.get_driver "FreeBSD" =
      Except.error "OS must be either Windows, Linux or Mac" :=
  ⟨c8_amended_platform_cases.2.2.2.2.2.2.1 "FreeBSD"
      (by decide) (by decide),
   c8_amended_platform_cases.2.2.2.2.2.2.2 "FreeBSD"
      (by decide) (by decide) (by decide)⟩

